import Mathlib

/-! # The playing-card value type of `patience`

A shallow embedding of `include/core/card.hpp` and `src/core/card.cpp`.

* `Suit`, `Rank` are the two scoped enumerations as the values of their
  underlying type `int`, with the declared enumerators as named values and
  `toInt` for `static_cast<int>`.
* `Card` is the record of the three private fields `suit_`, `rank_`, `faceUp_`.
  Every member function is given twice: as a function on the field record
  (what the body does to the object it is called on) and, where addresses or
  aliasing matter (`clone`, the assignment operators, `flip` on one of several
  objects), as an operation on a `Store` of objects indexed by address.
-/

namespace patience

/-! ## Enumerations -/

/-- Scoped enumeration `Suit`. An `enum class` without a declared base has the
underlying type `int`, and an object of the enumeration can hold every value of
that type (`Suit{}`, `static_cast<Suit>(4)`), not only the declared enumerators;
`val` is that value. No arithmetic is done on it, so it is kept as an integer. -/
structure Suit where
  val : Int
  deriving DecidableEq

/-- Enumerator `HEARTS`: first enumerator, no initialiser, value 0. -/
def Suit.HEARTS : Suit := { val := 0 }

/-- Enumerator `DIAMONDS`: no initialiser, one more than `HEARTS`. -/
def Suit.DIAMONDS : Suit := { val := Suit.HEARTS.val + 1 }

/-- Enumerator `CLUBS`: no initialiser, one more than `DIAMONDS`. -/
def Suit.CLUBS : Suit := { val := Suit.DIAMONDS.val + 1 }

/-- Enumerator `SPADES`: no initialiser, one more than `CLUBS`. -/
def Suit.SPADES : Suit := { val := Suit.CLUBS.val + 1 }

/-- Scoped enumeration `Rank`, with underlying type `int` like `Suit`: an object
can hold every value of that type (`Rank{}` is 0, `static_cast<Rank>(14)` is 14). -/
structure Rank where
  val : Int
  deriving DecidableEq

/-- Enumerator `ACE = 1`. -/
def Rank.ACE : Rank := { val := 1 }

/-- Enumerator `TWO`: no initialiser, one more than `ACE`. -/
def Rank.TWO : Rank := { val := Rank.ACE.val + 1 }

/-- Enumerator `THREE`: no initialiser, one more than `TWO`. -/
def Rank.THREE : Rank := { val := Rank.TWO.val + 1 }

/-- Enumerator `FOUR`: no initialiser, one more than `THREE`. -/
def Rank.FOUR : Rank := { val := Rank.THREE.val + 1 }

/-- Enumerator `FIVE`: no initialiser, one more than `FOUR`. -/
def Rank.FIVE : Rank := { val := Rank.FOUR.val + 1 }

/-- Enumerator `SIX`: no initialiser, one more than `FIVE`. -/
def Rank.SIX : Rank := { val := Rank.FIVE.val + 1 }

/-- Enumerator `SEVEN`: no initialiser, one more than `SIX`. -/
def Rank.SEVEN : Rank := { val := Rank.SIX.val + 1 }

/-- Enumerator `EIGHT`: no initialiser, one more than `SEVEN`. -/
def Rank.EIGHT : Rank := { val := Rank.SEVEN.val + 1 }

/-- Enumerator `NINE`: no initialiser, one more than `EIGHT`. -/
def Rank.NINE : Rank := { val := Rank.EIGHT.val + 1 }

/-- Enumerator `TEN`: no initialiser, one more than `NINE`. -/
def Rank.TEN : Rank := { val := Rank.NINE.val + 1 }

/-- Enumerator `JACK`: no initialiser, one more than `TEN`. -/
def Rank.JACK : Rank := { val := Rank.TEN.val + 1 }

/-- Enumerator `QUEEN`: no initialiser, one more than `JACK`. -/
def Rank.QUEEN : Rank := { val := Rank.JACK.val + 1 }

/-- Enumerator `KING`: no initialiser, one more than `QUEEN`. -/
def Rank.KING : Rank := { val := Rank.QUEEN.val + 1 }

/-- Integer value of a suit, `static_cast<int>(suit)`. -/
def Suit.toInt (s : Suit) : Int := s.val

/-- Integer value of a rank, `static_cast<int>(rank)`. -/
def Rank.toInt (r : Rank) : Int := r.val

/-! ## The class `Card`: fields and member functions on the field record -/

/-- Private data members of `Card`. -/
structure Card where
  suit_ : Suit
  rank_ : Rank
  faceUp_ : Bool
  deriving DecidableEq

/-- Constructor `Card::Card(Suit suit, Rank rank)`. -/
def Card.ctor (suit : Suit) (rank : Rank) : Card :=
  { suit_ := suit, rank_ := rank, faceUp_ := false }

/-- Copy constructor `Card::Card(const Card &other)`. -/
def Card.copyCtor (other : Card) : Card :=
  { suit_ := other.suit_, rank_ := other.rank_, faceUp_ := other.faceUp_ }

/-- Move constructor `Card::Card(Card &&other)`: reads the three fields of
`other` and writes nothing to it. -/
def Card.moveCtor (other : Card) : Card :=
  { suit_ := other.suit_, rank_ := other.rank_, faceUp_ := other.faceUp_ }

/-- Getter `Card::getSuit`. -/
def Card.getSuit (c : Card) : Suit := c.suit_

/-- Getter `Card::getRank`. -/
def Card.getRank (c : Card) : Rank := c.rank_

/-- Getter `Card::isFaceUp`. -/
def Card.isFaceUp (c : Card) : Bool := c.faceUp_

/-- Member `Card::flip`: `faceUp_ = !faceUp_`. -/
def Card.flip (c : Card) : Card :=
  { c with faceUp_ := !c.faceUp_ }

/-- Body of both assignment operators when `this != &other`: the three fields
are overwritten, in order, with those of `other`. -/
def Card.assignFields (c other : Card) : Card :=
  let c1 := { c with suit_ := other.suit_ }
  let c2 := { c1 with rank_ := other.rank_ }
  { c2 with faceUp_ := other.faceUp_ }

/-- Comparison `Card::operator==`. -/
def Card.opEq (c other : Card) : Bool :=
  c.suit_ == other.suit_ && c.rank_ == other.rank_

/-- Comparison `Card::operator!=`: `!(*this == other)`. -/
def Card.opNe (c other : Card) : Bool :=
  !(c.opEq other)

/-! ## Objects with addresses -/

/-- Object store: the `Card` object at address `p` is `cells[p]`. -/
structure Store where
  cells : List Card
  deriving DecidableEq

/-- Object found at address `p`, if any. -/
def Store.read (h : Store) (p : Nat) : Option Card := h.cells[p]?

/-- Overwrite the object at address `p`. -/
def Store.write (h : Store) (p : Nat) (c : Card) : Store :=
  { cells := h.cells.set p c }

/-- Allocation of a new object (`std::make_unique<Card>`): the object is placed
at an address that no existing object has, and that address is returned. -/
def Store.alloc (h : Store) (c : Card) : Store × Nat :=
  ({ cells := h.cells ++ [c] }, h.cells.length)

/-- Call `self->flip()`. -/
def Store.flip (h : Store) (self : Nat) : Option Store :=
  match h.read self with
  | none => none
  | some c => some (h.write self c.flip)

/-- Call `self->clone()`: `std::make_unique<Card>(*this)`, that is the copy
constructor run on `*this` into a newly allocated object. -/
def Store.clone (h : Store) (self : Nat) : Option (Store × Nat) :=
  match h.read self with
  | none => none
  | some c => some (h.alloc (Card.copyCtor c))

/-- Call `*self = *other` through `Card::operator=(const Card &)`; the result
is the store and the address of `*this`. -/
def Store.opAssign (h : Store) (self other : Nat) : Option (Store × Nat) :=
  match h.read self, h.read other with
  | some c, some o =>
    if self ≠ other then some (h.write self (c.assignFields o), self)
    else some (h, self)
  | _, _ => none

/-- Call `*self = std::move(*other)` through `Card::operator=(Card &&)`. -/
def Store.opAssignMove (h : Store) (self other : Nat) : Option (Store × Nat) :=
  match h.read self, h.read other with
  | some c, some o =>
    if self ≠ other then some (h.write self (c.assignFields o), self)
    else some (h, self)
  | _, _ => none

/-- Copy construction `Card n(*other)` of a new object from the object at
`other`; the result is the store and the address of the new object. -/
def Store.copyConstruct (h : Store) (other : Nat) : Option (Store × Nat) :=
  match h.read other with
  | none => none
  | some o => some (h.alloc (Card.copyCtor o))

/-- Move construction `Card n(std::move(*other))` of a new object from the
object at `other`; the constructor body writes nothing to `*other`. -/
def Store.moveConstruct (h : Store) (other : Nat) : Option (Store × Nat) :=
  match h.read other with
  | none => none
  | some o => some (h.alloc (Card.moveCtor o))

/-! ## The demo entry point -/

/-- Text of `"up"` or `"down"` chosen by `card->isFaceUp() ? "up" : "down"`. -/
def faceText (c : Card) : String :=
  if c.isFaceUp then "up" else "down"

/-- Entry point `main` of `src/main.cpp`, started with the objects of `h0`
alive: the result is the text written to `std::cout` and the returned status. -/
def main (h0 : Store) : Option (String × Int) := do
  let out0 := "Patience Game Starting...\n"
  let (h1, card) := h0.alloc (Card.ctor Suit.HEARTS Rank.ACE)
  let c1 ← h1.read card
  let out1 := out0 ++ "Created a card: " ++ "Suit: " ++ toString c1.getSuit.toInt
    ++ ", Rank: " ++ toString c1.getRank.toInt ++ "\n"
  let c2 ← h1.read card
  let out2 := out1 ++ "Card is face " ++ faceText c2 ++ "\n"
  let h2 ← h1.flip card
  let c3 ← h2.read card
  let out3 := out2 ++ "After flip, card is face " ++ faceText c3 ++ "\n"
  pure (out3, 0)

/-! ## Counting cards -/

/-- Two objects: the Ace of Hearts at address 0, the King of Spades at 1. -/
def aceAndKing : Store :=
  { cells := [Card.ctor .HEARTS .ACE, Card.ctor .SPADES .KING] }

/-! ## Store lemmas -/

theorem Store.read_write_self (h : Store) (p : Nat) (c d : Card)
    (hp : h.read p = some c) : (h.write p d).read p = some d := by
  unfold Store.read at hp
  have hlt : p < h.cells.length := by
    rcases List.getElem?_eq_some.mp hp with ⟨hlt, _⟩
    exact hlt
  simp [Store.read, Store.write, hlt]

theorem Store.read_write_other (h : Store) (p q : Nat) (d : Card) (hpq : p ≠ q) :
    (h.write p d).read q = h.read q := by
  simp [Store.read, Store.write, List.getElem?_set_ne hpq]

theorem Store.read_lt (h : Store) (p : Nat) (c : Card) (hp : h.read p = some c) :
    p < h.cells.length := by
  unfold Store.read at hp
  rcases List.getElem?_eq_some.mp hp with ⟨hlt, _⟩
  exact hlt

theorem Store.read_alloc_new (h : Store) (c : Card) :
    (h.alloc c).1.read (h.alloc c).2 = some c := by
  simp [Store.read, Store.alloc]

theorem Store.read_alloc_old (h : Store) (c d : Card) (p : Nat)
    (hp : h.read p = some d) : (h.alloc c).1.read p = some d := by
  have hlt := Store.read_lt h p d hp
  unfold Store.read at hp
  simp [Store.read, Store.alloc, List.getElem?_append_left hlt, hp]

theorem Store.flip_of_read (h : Store) (p : Nat) (c : Card) (hp : h.read p = some c) :
    h.flip p = some (h.write p c.flip) := by
  simp only [Store.flip, hp]

theorem Store.read_inj (h : Store) (p : Nat) (c d : Card)
    (hc : h.read p = some c) (hd : h.read p = some d) : c = d :=
  Option.some.inj (hc.symm.trans hd)

theorem Store.opAssign_of_ne (h : Store) (p q : Nat) (a b : Card)
    (ha : h.read p = some a) (hb : h.read q = some b) (hpq : p ≠ q) :
    h.opAssign p q = some (h.write p (a.assignFields b), p) := by
  simp [Store.opAssign, ha, hb, hpq]

theorem Store.opAssign_self (h : Store) (p : Nat) (a : Card)
    (ha : h.read p = some a) : h.opAssign p p = some (h, p) := by
  simp [Store.opAssign, ha]

/-- C1: for every suit `s` and rank `r`, the card built by `Card(s, r)` has
`getSuit() = s`, `getRank() = r` and `isFaceUp() = false`. -/
theorem Card_ctor_getters (s : Suit) (r : Rank) :
    (Card.ctor s r).getSuit = s ∧ (Card.ctor s r).getRank = r ∧
      (Card.ctor s r).isFaceUp = false :=
  ⟨rfl, rfl, rfl⟩

/-- C2: for all cards `a` and `b`, `a == b` is true exactly when the suits are
equal and the ranks are equal; replacing the face-up flags of `a` and `b` by any
other values leaves the result of `==` the same. -/
theorem opEq_iff_suit_rank (a b : Card) :
    (a.opEq b = true ↔ a.getSuit = b.getSuit ∧ a.getRank = b.getRank) ∧
      ∀ f g : Bool,
        Card.opEq { a with faceUp_ := f } { b with faceUp_ := g } = a.opEq b := by
  refine ⟨?_, fun f g => rfl⟩
  simp [Card.opEq, Card.getSuit, Card.getRank]

/-- C10: `!=` is the exact negation of `==`: for all cards `a` and `b`,
`(a != b) = !(a == b)`; cards that differ in suit or in rank compare unequal, and
cards with the same suit and the same rank do not compare unequal. -/
theorem opNe_eq_not_opEq (a b : Card) :
    a.opNe b = !(a.opEq b) ∧
      (a.getSuit ≠ b.getSuit ∨ a.getRank ≠ b.getRank → a.opNe b = true) ∧
      (a.getSuit = b.getSuit ∧ a.getRank = b.getRank → a.opNe b = false) := by
  refine ⟨rfl, ?_, ?_⟩
  · intro hne
    simp only [Card.opNe, Card.opEq, Card.getSuit, Card.getRank] at hne ⊢
    rcases hne with hs | hr
    · simp [hs]
    · simp [hr]
  · rintro ⟨hs, hr⟩
    simp only [Card.getSuit, Card.getRank] at hs hr
    simp [Card.opNe, Card.opEq, hs, hr]

/-- Witness for C10: the cards of the comparison test, and a card against its
flipped self. -/
theorem opNe_eq_not_opEq_witness :
    Card.opNe (Card.ctor .HEARTS .ACE) (Card.ctor .SPADES .ACE) = true ∧
      Card.opNe (Card.ctor .HEARTS .ACE) (Card.flip (Card.ctor .HEARTS .ACE)) = false :=
  ⟨(opNe_eq_not_opEq _ _).2.1 (Or.inl (by decide)),
   (opNe_eq_not_opEq _ _).2.2 ⟨rfl, rfl⟩⟩

/-! ## Enumerator values -/

/-- C4: `flip()` toggles the orientation: `isFaceUp()` after the flip is the
negation of `isFaceUp()` before it; a face-down card becomes face up and a
face-up card becomes face down. -/
theorem flip_toggles (c : Card) :
    c.flip.isFaceUp = !c.isFaceUp ∧
      (Card.flip { c with faceUp_ := false }).isFaceUp = true ∧
      (Card.flip { c with faceUp_ := true }).isFaceUp = false :=
  ⟨rfl, rfl, rfl⟩

/-- C5: `flip()` changes nothing but the face-up flag: suit and rank of the
flipped card are those before the flip, and in a store of objects a call of
`flip` on the object at `p` succeeds, leaves suit and rank of that object as
they were and leaves every other object and the number of objects unchanged. -/
theorem flip_frame (h : Store) (p : Nat) (c : Card) (hc : h.read p = some c) :
    (c.flip.getSuit = c.getSuit ∧ c.flip.getRank = c.getRank) ∧
      ∃ h1 c1, h.flip p = some h1 ∧ h1.read p = some c1 ∧
        c1.getSuit = c.getSuit ∧ c1.getRank = c.getRank ∧
        (∀ q, q ≠ p → h1.read q = h.read q) ∧
        h1.cells.length = h.cells.length := by
  refine ⟨⟨rfl, rfl⟩, h.write p c.flip, c.flip, ?_, ?_, rfl, rfl, ?_, ?_⟩
  · simp [Store.flip, hc]
  · exact Store.read_write_self h p c c.flip hc
  · intro q hq
    exact Store.read_write_other h p q c.flip (Ne.symm hq)
  · simp [Store.write]

/-- Witness for C5: flipping the first of two objects. -/
theorem flip_frame_witness :
    ((Card.ctor .HEARTS .ACE).flip.getSuit = (Card.ctor .HEARTS .ACE).getSuit ∧
      (Card.ctor .HEARTS .ACE).flip.getRank = (Card.ctor .HEARTS .ACE).getRank) ∧
      ∃ h1 c1,
        Store.flip ⟨[Card.ctor .HEARTS .ACE, Card.ctor .SPADES .KING]⟩ 0 = some h1 ∧
        h1.read 0 = some c1 ∧
        c1.getSuit = (Card.ctor .HEARTS .ACE).getSuit ∧
        c1.getRank = (Card.ctor .HEARTS .ACE).getRank ∧
        (∀ q, q ≠ 0 → h1.read q
          = Store.read ⟨[Card.ctor .HEARTS .ACE, Card.ctor .SPADES .KING]⟩ q) ∧
        h1.cells.length
          = (Store.mk [Card.ctor .HEARTS .ACE, Card.ctor .SPADES .KING]).cells.length :=
  flip_frame ⟨[Card.ctor .HEARTS .ACE, Card.ctor .SPADES .KING]⟩ 0
    (Card.ctor .HEARTS .ACE) rfl

/-- C6: `flip()` is an involution: for every card, face up or face down, two
flips give a card with the same suit, rank and orientation, that is the same
card state. -/
theorem flip_flip (c : Card) :
    c.flip.flip.getSuit = c.getSuit ∧ c.flip.flip.getRank = c.getRank ∧
      c.flip.flip.isFaceUp = c.isFaceUp ∧ c.flip.flip = c := by
  cases c with
  | mk s r f => cases f <;> exact ⟨rfl, rfl, rfl, rfl⟩

/-! ## Assignment -/

/-- C3, counterexample: the object at address 0 is the Ace of Hearts; after the
copy assignment `*0 = *1`, and likewise after the move assignment, it is the
King of Spades, so both its suit and its rank have changed. -/
theorem assign_changes_suit_rank :
    aceAndKing.read 0 = some (Card.ctor .HEARTS .ACE) ∧
      aceAndKing.opAssign 0 1
        = some ({ cells := [Card.ctor .SPADES .KING, Card.ctor .SPADES .KING] }, 0) ∧
      aceAndKing.opAssignMove 0 1
        = some ({ cells := [Card.ctor .SPADES .KING, Card.ctor .SPADES .KING] }, 0) ∧
      (Card.ctor .SPADES .KING).getSuit ≠ (Card.ctor .HEARTS .ACE).getSuit ∧
      (Card.ctor .SPADES .KING).getRank ≠ (Card.ctor .HEARTS .ACE).getRank := by
  decide

/-- C3, amended: `flip()` on an object leaves its suit and rank as they were;
copy assignment and move assignment to the object from an object holding `o`
succeed and leave it with the suit and the rank of `o`, so that its suit and rank
are unchanged exactly when `o` has the same suit and rank; self-assignment, by
copy or by move, returns the store as it was. -/
theorem suit_rank_after_mutation (h : Store) (p q : Nat) (c o : Card)
    (hc : h.read p = some c) (ho : h.read q = some o) :
    (∃ h1 c1, h.flip p = some h1 ∧ h1.read p = some c1 ∧
        c1.getSuit = c.getSuit ∧ c1.getRank = c.getRank) ∧
      (∃ h2 c2, h.opAssign p q = some (h2, p) ∧ h2.read p = some c2 ∧
        c2.getSuit = o.getSuit ∧ c2.getRank = o.getRank ∧
        ((c2.getSuit = c.getSuit ∧ c2.getRank = c.getRank) ↔
          (o.getSuit = c.getSuit ∧ o.getRank = c.getRank))) ∧
      (∃ h3 c3, h.opAssignMove p q = some (h3, p) ∧ h3.read p = some c3 ∧
        c3.getSuit = o.getSuit ∧ c3.getRank = o.getRank ∧
        ((c3.getSuit = c.getSuit ∧ c3.getRank = c.getRank) ↔
          (o.getSuit = c.getSuit ∧ o.getRank = c.getRank))) ∧
      h.opAssign p p = some (h, p) ∧ h.opAssignMove p p = some (h, p) := by
  refine ⟨⟨h.write p c.flip, c.flip, ?_, ?_, rfl, rfl⟩, ?_, ?_,
    Store.opAssign_self h p c hc, by simp [Store.opAssignMove, hc]⟩
  · simp [Store.flip, hc]
  · exact Store.read_write_self h p c c.flip hc
  · by_cases hpq : p = q
    · subst hpq
      have hco : c = o := Option.some.inj (hc.symm.trans ho)
      subst hco
      exact ⟨h, c, by simp [Store.opAssign, hc], hc, rfl, rfl, Iff.rfl⟩
    · refine ⟨h.write p (c.assignFields o), c.assignFields o, ?_, ?_, rfl, rfl, Iff.rfl⟩
      · simp [Store.opAssign, hc, ho, hpq]
      · exact Store.read_write_self h p c _ hc
  · by_cases hpq : p = q
    · subst hpq
      have hco : c = o := Option.some.inj (hc.symm.trans ho)
      subst hco
      exact ⟨h, c, by simp [Store.opAssignMove, hc], hc, rfl, rfl, Iff.rfl⟩
    · refine ⟨h.write p (c.assignFields o), c.assignFields o, ?_, ?_, rfl, rfl, Iff.rfl⟩
      · simp [Store.opAssignMove, hc, ho, hpq]
      · exact Store.read_write_self h p c _ hc

/-- Witness for C3, amended: the Ace of Hearts at address 0, assigned from the
King of Spades at address 1. -/
theorem suit_rank_after_mutation_witness :
    (∃ h1 c1, aceAndKing.flip 0 = some h1 ∧ h1.read 0 = some c1 ∧
        c1.getSuit = (Card.ctor .HEARTS .ACE).getSuit ∧
        c1.getRank = (Card.ctor .HEARTS .ACE).getRank) ∧
      (∃ h2 c2, aceAndKing.opAssign 0 1 = some (h2, 0) ∧ h2.read 0 = some c2 ∧
        c2.getSuit = (Card.ctor .SPADES .KING).getSuit ∧
        c2.getRank = (Card.ctor .SPADES .KING).getRank ∧
        ((c2.getSuit = (Card.ctor .HEARTS .ACE).getSuit ∧
            c2.getRank = (Card.ctor .HEARTS .ACE).getRank) ↔
          ((Card.ctor .SPADES .KING).getSuit = (Card.ctor .HEARTS .ACE).getSuit ∧
            (Card.ctor .SPADES .KING).getRank = (Card.ctor .HEARTS .ACE).getRank))) ∧
      (∃ h3 c3, aceAndKing.opAssignMove 0 1 = some (h3, 0) ∧ h3.read 0 = some c3 ∧
        c3.getSuit = (Card.ctor .SPADES .KING).getSuit ∧
        c3.getRank = (Card.ctor .SPADES .KING).getRank ∧
        ((c3.getSuit = (Card.ctor .HEARTS .ACE).getSuit ∧
            c3.getRank = (Card.ctor .HEARTS .ACE).getRank) ↔
          ((Card.ctor .SPADES .KING).getSuit = (Card.ctor .HEARTS .ACE).getSuit ∧
            (Card.ctor .SPADES .KING).getRank = (Card.ctor .HEARTS .ACE).getRank))) ∧
      aceAndKing.opAssign 0 0 = some (aceAndKing, 0) ∧
      aceAndKing.opAssignMove 0 0 = some (aceAndKing, 0) :=
  suit_rank_after_mutation aceAndKing 0 1 (Card.ctor .HEARTS .ACE)
    (Card.ctor .SPADES .KING) rfl rfl

/-! ## Cloning -/

/-- C7: for every card `c` held by an object at `p`, face up or not, `clone()`
succeeds and returns the address `q` of a different object whose suit, rank and
orientation are those of `c`, while the object at `p` still holds `c`. -/
theorem clone_identical_state (h : Store) (p : Nat) (c : Card)
    (hc : h.read p = some c) :
    ∃ h1 q d, h.clone p = some (h1, q) ∧ h1.read q = some d ∧
      d.getSuit = c.getSuit ∧ d.getRank = c.getRank ∧ d.isFaceUp = c.isFaceUp ∧
      q ≠ p ∧ h1.read p = some c := by
  refine ⟨(h.alloc (Card.copyCtor c)).1, (h.alloc (Card.copyCtor c)).2,
    Card.copyCtor c, ?_, ?_, rfl, rfl, rfl, ?_, ?_⟩
  · simp [Store.clone, hc]
  · exact Store.read_alloc_new h _
  · have hlt := Store.read_lt h p c hc
    simp only [Store.alloc]
    omega
  · exact Store.read_alloc_old h _ c p hc

/-- Witness for C7: the clone test, a face-up Ace of Hearts. -/
theorem clone_identical_state_witness :
    ∃ h1 q d, Store.clone ⟨[(Card.ctor .HEARTS .ACE).flip]⟩ 0 = some (h1, q) ∧
      h1.read q = some d ∧
      d.getSuit = ((Card.ctor .HEARTS .ACE).flip).getSuit ∧
      d.getRank = ((Card.ctor .HEARTS .ACE).flip).getRank ∧
      d.isFaceUp = ((Card.ctor .HEARTS .ACE).flip).isFaceUp ∧
      q ≠ 0 ∧ h1.read 0 = some ((Card.ctor .HEARTS .ACE).flip) :=
  clone_identical_state ⟨[(Card.ctor .HEARTS .ACE).flip]⟩ 0
    ((Card.ctor .HEARTS .ACE).flip) rfl

/-- C8: a clone is independent of its original: when the object at `p` holds `c`
and `q` is the address returned by `clone()`, holding `d`, then flipping the
clone succeeds, flips `d` and leaves the object at `p` holding `c`, and flipping
the original succeeds, flips `c` and leaves the object at `q` holding `d`. -/
theorem clone_independent (h : Store) (p : Nat) (c : Card)
    (hc : h.read p = some c) :
    ∃ h1 q d, h.clone p = some (h1, q) ∧ h1.read p = some c ∧ h1.read q = some d ∧
      (∃ h2, h1.flip q = some h2 ∧ h2.read q = some d.flip ∧ h2.read p = some c) ∧
      (∃ h3, h1.flip p = some h3 ∧ h3.read p = some c.flip ∧ h3.read q = some d) := by
  have hlt := Store.read_lt h p c hc
  have hne : (h.alloc (Card.copyCtor c)).2 ≠ p := by
    simp only [Store.alloc]
    omega
  have hp1 : (h.alloc (Card.copyCtor c)).1.read p = some c :=
    Store.read_alloc_old h _ c p hc
  have hq1 : (h.alloc (Card.copyCtor c)).1.read (h.alloc (Card.copyCtor c)).2
      = some (Card.copyCtor c) := Store.read_alloc_new h _
  refine ⟨(h.alloc (Card.copyCtor c)).1, (h.alloc (Card.copyCtor c)).2,
    Card.copyCtor c, ?_, hp1, hq1, ?_, ?_⟩
  · simp [Store.clone, hc]
  · refine ⟨_, Store.flip_of_read _ _ _ hq1, ?_, ?_⟩
    · exact Store.read_write_self _ _ _ _ hq1
    · rw [Store.read_write_other _ _ _ _ hne]
      exact hp1
  · refine ⟨_, Store.flip_of_read _ _ _ hp1, ?_, ?_⟩
    · exact Store.read_write_self _ _ _ _ hp1
    · rw [Store.read_write_other _ _ _ _ (Ne.symm hne)]
      exact hq1

/-- Witness for C8: a face-up Ace of Hearts and its clone. -/
theorem clone_independent_witness :
    ∃ h1 q d, Store.clone ⟨[(Card.ctor .HEARTS .ACE).flip]⟩ 0 = some (h1, q) ∧
      h1.read 0 = some ((Card.ctor .HEARTS .ACE).flip) ∧ h1.read q = some d ∧
      (∃ h2, h1.flip q = some h2 ∧ h2.read q = some d.flip ∧
        h2.read 0 = some ((Card.ctor .HEARTS .ACE).flip)) ∧
      (∃ h3, h1.flip 0 = some h3 ∧
        h3.read 0 = some ((Card.ctor .HEARTS .ACE).flip).flip ∧
        h3.read q = some d) :=
  clone_independent ⟨[(Card.ctor .HEARTS .ACE).flip]⟩ 0
    ((Card.ctor .HEARTS .ACE).flip) rfl

/-! ## Equality as card identity -/

/-- C11: flipping never changes a card under `==`: the flipped card compares
equal to the card before the flip, in both argument orders, and does not compare
unequal, although its `isFaceUp()` differs; so two cards that compare equal need
not have the same state. -/
theorem flip_keeps_identity (c : Card) :
    c.flip.opEq c = true ∧ c.opEq c.flip = true ∧ c.flip.opNe c = false ∧
      c.flip.isFaceUp ≠ c.isFaceUp ∧ c.flip ≠ c := by
  cases c with
  | mk s r f => cases f <;> simp [Card.flip, Card.opEq, Card.opNe, Card.isFaceUp]

/-- C13: `==` is an equivalence relation on cards: reflexive, symmetric and
transitive. -/
theorem opEq_equivalence (a b c : Card) :
    a.opEq a = true ∧ (a.opEq b = true → b.opEq a = true) ∧
      (a.opEq b = true → b.opEq c = true → a.opEq c = true) := by
  simp only [Card.opEq, Bool.and_eq_true, beq_iff_eq]
  refine ⟨by simp, ?_, ?_⟩
  · rintro ⟨hs, hr⟩
    exact ⟨hs.symm, hr.symm⟩
  · rintro ⟨hs, hr⟩ ⟨hs2, hr2⟩
    exact ⟨hs.trans hs2, hr.trans hr2⟩

/-- Witness for C13: a face-down Ace of Hearts, the same card face up, and the
face-down card again. -/
theorem opEq_equivalence_witness :
    Card.opEq (Card.ctor .HEARTS .ACE).flip (Card.ctor .HEARTS .ACE) = true ∧
      Card.opEq (Card.ctor .HEARTS .ACE) (Card.ctor .HEARTS .ACE).flip.flip = true :=
  ⟨(opEq_equivalence (Card.ctor .HEARTS .ACE) (Card.ctor .HEARTS .ACE).flip
      (Card.ctor .HEARTS .ACE)).2.1 (by decide),
   (opEq_equivalence (Card.ctor .HEARTS .ACE) (Card.ctor .HEARTS .ACE).flip
      (Card.ctor .HEARTS .ACE).flip.flip).2.2 (by decide) (by decide)⟩

/-! ## Copying and moving -/

/-- C12: copy assignment copies the whole state: when the object at `p` holds
`a` and the object at `q` holds `b`, the call `*p = *q` succeeds and returns `p`,
the object at `p` then has the suit, rank and orientation of `b`, the object at
`q` still holds `b`, no other object changes, and the self-assignment `*p = *p`
returns the store as it was. -/
theorem opAssign_copies_state (h : Store) (p q : Nat) (a b : Card)
    (ha : h.read p = some a) (hb : h.read q = some b) :
    (∃ h1 a1, h.opAssign p q = some (h1, p) ∧ h1.read p = some a1 ∧
        a1.getSuit = b.getSuit ∧ a1.getRank = b.getRank ∧ a1.isFaceUp = b.isFaceUp ∧
        h1.read q = some b ∧ ∀ r, r ≠ p → h1.read r = h.read r) ∧
      h.opAssign p p = some (h, p) := by
  refine ⟨?_, Store.opAssign_self h p a ha⟩
  by_cases hpq : p = q
  · subst hpq
    have hab : a = b := Store.read_inj h p a b ha hb
    subst hab
    exact ⟨h, a, Store.opAssign_self h p a ha, ha, rfl, rfl, rfl, ha, fun _ _ => rfl⟩
  · refine ⟨h.write p (a.assignFields b), a.assignFields b,
      Store.opAssign_of_ne h p q a b ha hb hpq,
      Store.read_write_self h p a _ ha, rfl, rfl, rfl, ?_, ?_⟩
    · rw [Store.read_write_other h p q _ hpq]
      exact hb
    · intro r hr
      exact Store.read_write_other h p r _ (Ne.symm hr)

/-- Witness for C12: the Ace of Hearts at address 0 assigned from the King of
Spades at address 1. -/
theorem opAssign_copies_state_witness :
    (∃ h1 a1, aceAndKing.opAssign 0 1 = some (h1, 0) ∧ h1.read 0 = some a1 ∧
        a1.getSuit = (Card.ctor .SPADES .KING).getSuit ∧
        a1.getRank = (Card.ctor .SPADES .KING).getRank ∧
        a1.isFaceUp = (Card.ctor .SPADES .KING).isFaceUp ∧
        h1.read 1 = some (Card.ctor .SPADES .KING) ∧
        ∀ r, r ≠ 0 → h1.read r = aceAndKing.read r) ∧
      aceAndKing.opAssign 0 0 = some (aceAndKing, 0) :=
  opAssign_copies_state aceAndKing 0 1 (Card.ctor .HEARTS .ACE)
    (Card.ctor .SPADES .KING) rfl rfl

/-- C14: moving behaves exactly like copying: the move constructor builds the
same card as the copy constructor, move construction and move assignment give
the same result as copy construction and copy assignment on every store, and
when the object at `p` holds `a` and the object at `q` holds `b`, both succeed,
the target has the suit, rank and orientation of `b`, and the moved-from object
at `q` still holds `b`. -/
theorem move_like_copy (h : Store) (p q : Nat) (a b : Card)
    (ha : h.read p = some a) (hb : h.read q = some b) :
    Card.moveCtor b = Card.copyCtor b ∧
      h.moveConstruct q = h.copyConstruct q ∧
      h.opAssignMove p q = h.opAssign p q ∧
      (∃ h1 r d, h.moveConstruct q = some (h1, r) ∧ h1.read r = some d ∧
        d.getSuit = b.getSuit ∧ d.getRank = b.getRank ∧ d.isFaceUp = b.isFaceUp ∧
        h1.read q = some b) ∧
      (∃ h2 a2, h.opAssignMove p q = some (h2, p) ∧ h2.read p = some a2 ∧
        a2.getSuit = b.getSuit ∧ a2.getRank = b.getRank ∧ a2.isFaceUp = b.isFaceUp ∧
        h2.read q = some b) := by
  refine ⟨rfl, rfl, rfl, ?_, ?_⟩
  · refine ⟨(h.alloc (Card.moveCtor b)).1, (h.alloc (Card.moveCtor b)).2,
      Card.moveCtor b, ?_, Store.read_alloc_new h _, rfl, rfl, rfl,
      Store.read_alloc_old h _ b q hb⟩
    simp [Store.moveConstruct, hb]
  · have hmc : h.opAssignMove p q = h.opAssign p q := rfl
    rw [hmc]
    by_cases hpq : p = q
    · subst hpq
      have hab : a = b := Store.read_inj h p a b ha hb
      subst hab
      exact ⟨h, a, Store.opAssign_self h p a ha, ha, rfl, rfl, rfl, ha⟩
    · refine ⟨h.write p (a.assignFields b), a.assignFields b,
        Store.opAssign_of_ne h p q a b ha hb hpq,
        Store.read_write_self h p a _ ha, rfl, rfl, rfl, ?_⟩
      rw [Store.read_write_other h p q _ hpq]
      exact hb

/-- Witness for C14: the Ace of Hearts at address 0, moved into from a face-up
King of Spades at address 1. -/
theorem move_like_copy_witness :
    Card.moveCtor (Card.ctor .SPADES .KING).flip
        = Card.copyCtor (Card.ctor .SPADES .KING).flip ∧
      Store.moveConstruct ⟨[Card.ctor .HEARTS .ACE, (Card.ctor .SPADES .KING).flip]⟩ 1
        = Store.copyConstruct ⟨[Card.ctor .HEARTS .ACE, (Card.ctor .SPADES .KING).flip]⟩ 1 ∧
      Store.opAssignMove ⟨[Card.ctor .HEARTS .ACE, (Card.ctor .SPADES .KING).flip]⟩ 0 1
        = Store.opAssign ⟨[Card.ctor .HEARTS .ACE, (Card.ctor .SPADES .KING).flip]⟩ 0 1 ∧
      (∃ h1 r d,
        Store.moveConstruct ⟨[Card.ctor .HEARTS .ACE, (Card.ctor .SPADES .KING).flip]⟩ 1
          = some (h1, r) ∧ h1.read r = some d ∧
        d.getSuit = ((Card.ctor .SPADES .KING).flip).getSuit ∧
        d.getRank = ((Card.ctor .SPADES .KING).flip).getRank ∧
        d.isFaceUp = ((Card.ctor .SPADES .KING).flip).isFaceUp ∧
        h1.read 1 = some (Card.ctor .SPADES .KING).flip) ∧
      (∃ h2 a2,
        Store.opAssignMove ⟨[Card.ctor .HEARTS .ACE, (Card.ctor .SPADES .KING).flip]⟩ 0 1
          = some (h2, 0) ∧ h2.read 0 = some a2 ∧
        a2.getSuit = ((Card.ctor .SPADES .KING).flip).getSuit ∧
        a2.getRank = ((Card.ctor .SPADES .KING).flip).getRank ∧
        a2.isFaceUp = ((Card.ctor .SPADES .KING).flip).isFaceUp ∧
        h2.read 1 = some (Card.ctor .SPADES .KING).flip) :=
  move_like_copy ⟨[Card.ctor .HEARTS .ACE, (Card.ctor .SPADES .KING).flip]⟩ 0 1
    (Card.ctor .HEARTS .ACE) (Card.ctor .SPADES .KING).flip rfl rfl

/-! ## Counting -/

/-- C16: the demo entry point takes no input and is deterministic: whatever
objects exist when it starts, it succeeds, writes the same four lines (the
created card has suit value 0 and rank value 1, the values of `HEARTS` and `ACE`,
is face down before the flip and face up after it) and returns status 0. -/
theorem main_output (h0 : Store) :
    main h0 = some ("Patience Game Starting...\nCreated a card: Suit: 0, Rank: 1\nCard is face down\nAfter flip, card is face up\n", 0) ∧
      Suit.HEARTS.toInt = 0 ∧ Rank.ACE.toInt = 1 := by
  have hr := Store.read_alloc_new h0 (Card.ctor Suit.HEARTS Rank.ACE)
  have hf := Store.flip_of_read _ _ _ hr
  have hr2 := Store.read_write_self _ _ _ (Card.flip (Card.ctor Suit.HEARTS Rank.ACE)) hr
  refine ⟨?_, rfl, rfl⟩
  simp only [main, hr, hf, hr2, Option.bind_eq_bind, Option.some_bind, Option.pure_def,
    bind, pure]
  decide

end patience
